import Mathlib

/-!
Verification development for the mlvt-backend video-management service.

The embedding covers:
* the MoMo payment-signature entity (`MoMoRequest`, `NewMoMoRequest`,
  `GenerateSignature`), backed by an executable HMAC-SHA256 over byte lists;
* the S3 presigned-URL issuer (`generatePresignedURL`), parameterised over the
  external provider so that provider invocations are observable;
* the video lifecycle service and record store, and the HTTP request surface
  (controller), modelled from the specification where the implementation files
  are not part of the sources (the repository ships their tests, which pin the
  externally observable behaviour used here).

Machine words are `Nat` with explicit reduction modulo 2^32 where the Go code
relies on 32-bit wrap-around.
-/

namespace Mlvt

/-! ### SHA-256 over byte lists (bytes are `Nat < 256`) -/

/-- 2^32, the modulus for 32-bit word arithmetic. -/
def M32 : Nat := 4294967296

/-- 32-bit addition with wrap-around. -/
def add32 (a b : Nat) : Nat := (a + b) % M32

/-- 32-bit right rotation. -/
def rotr32 (x n : Nat) : Nat := ((x >>> n) ||| (x <<< (32 - n))) % M32

/-- 32-bit bitwise complement. -/
def not32 (x : Nat) : Nat := x ^^^ (M32 - 1)

def bigSigma0 (x : Nat) : Nat := (rotr32 x 2) ^^^ (rotr32 x 13) ^^^ (rotr32 x 22)

def bigSigma1 (x : Nat) : Nat := (rotr32 x 6) ^^^ (rotr32 x 11) ^^^ (rotr32 x 25)

def smallSigma0 (x : Nat) : Nat := (rotr32 x 7) ^^^ (rotr32 x 18) ^^^ (x >>> 3)

def smallSigma1 (x : Nat) : Nat := (rotr32 x 17) ^^^ (rotr32 x 19) ^^^ (x >>> 10)

def chFn (e f g : Nat) : Nat := (e &&& f) ^^^ ((not32 e) &&& g)

def majFn (a b c : Nat) : Nat := (a &&& b) ^^^ (a &&& c) ^^^ (b &&& c)

/-- The SHA-256 round constants (FIPS 180-4), in decimal. -/
def sha256K : List Nat :=
  [1116352408, 1899447441, 3049323471, 3921009573, 961987163, 1508970993,
   2453635748, 2870763221, 3624381080, 310598401, 607225278, 1426881987,
   1925078388, 2162078206, 2614888103, 3248222580, 3835390401, 4022224774,
   264347078, 604807628, 770255983, 1249150122, 1555081692, 1996064986,
   2554220882, 2821834349, 2952996808, 3210313671, 3336571891, 3584528711,
   113926993, 338241895, 666307205, 773529912, 1294757372, 1396182291,
   1695183700, 1986661051, 2177026350, 2456956037, 2730485921, 2820302411,
   3259730800, 3345764771, 3516065817, 3600352804, 4094571909, 275423344,
   430227734, 506948616, 659060556, 883997877, 958139571, 1322822218,
   1537002063, 1747873779, 1955562222, 2024104815, 2227730452, 2361852424,
   2428436474, 2756734187, 3204031479, 3329325298]

/-- The eight working words of the SHA-256 state. -/
structure Hash8 where
  a : Nat
  b : Nat
  c : Nat
  d : Nat
  e : Nat
  f : Nat
  g : Nat
  h : Nat
deriving DecidableEq, Repr

/-- The SHA-256 initial hash value (FIPS 180-4), in decimal. -/
def sha256H0 : Hash8 :=
  ⟨1779033703, 3144134277, 1013904242, 2773480762,
   1359893119, 2600822924, 528734635, 1541459225⟩

/-- `value` as `n` big-endian bytes. -/
def beBytes (n value : Nat) : List Nat :=
  (List.range n).map (fun i => (value >>> (8 * (n - 1 - i))) % 256)

/-- SHA-256 padding: append `0x80`, zeros to 56 mod 64, then the bit length
as 8 big-endian bytes. -/
def sha256pad (msg : List Nat) : List Nat :=
  let r := (msg.length + 1) % 64
  msg ++ [0x80] ++ List.replicate ((120 - r) % 64) 0 ++ beBytes 8 (msg.length * 8)

/-- Group bytes into big-endian 32-bit words. -/
def wordsOfBytes : List Nat → List Nat
  | b0 :: b1 :: b2 :: b3 :: rest =>
      (((b0 * 256 + b1) * 256 + b2) * 256 + b3) :: wordsOfBytes rest
  | _ => []

/-- Extend the 16 block words to the 64-entry message schedule. -/
def extendSchedule (w0 : List Nat) : List Nat :=
  (List.range 48).foldl
    (fun w _ =>
      let n := w.length
      w ++ [add32 (add32 (smallSigma1 (w.getD (n - 2) 0)) (w.getD (n - 7) 0))
                  (add32 (smallSigma0 (w.getD (n - 15) 0)) (w.getD (n - 16) 0))])
    w0

/-- One SHA-256 compression round. -/
def compressRound (st : Hash8) (ki wi : Nat) : Hash8 :=
  let t1 := add32 st.h (add32 (bigSigma1 st.e) (add32 (chFn st.e st.f st.g) (add32 ki wi)))
  let t2 := add32 (bigSigma0 st.a) (majFn st.a st.b st.c)
  ⟨add32 t1 t2, st.a, st.b, st.c, add32 st.d t1, st.e, st.f, st.g⟩

/-- Compress one 64-byte block into the running state. -/
def compressBlock (st : Hash8) (block : List Nat) : Hash8 :=
  let w := extendSchedule (wordsOfBytes block)
  let r := (List.range 64).foldl
    (fun s i => compressRound s (sha256K.getD i 0) (w.getD i 0)) st
  ⟨add32 st.a r.a, add32 st.b r.b, add32 st.c r.c, add32 st.d r.d,
   add32 st.e r.e, add32 st.f r.f, add32 st.g r.g, add32 st.h r.h⟩

/-- Split a byte list into 64-byte blocks. -/
def chunk64 : List Nat → List (List Nat)
  | [] => []
  | x :: xs => ((x :: xs).take 64) :: chunk64 ((x :: xs).drop 64)
termination_by l => l.length
decreasing_by simp [List.length_drop]; omega

/-- A 32-bit word as 4 big-endian bytes. -/
def wordToBytes (x : Nat) : List Nat :=
  [(x >>> 24) % 256, (x >>> 16) % 256, (x >>> 8) % 256, x % 256]

/-- SHA-256 of a byte list, as the 32 digest bytes. -/
def sha256 (msg : List Nat) : List Nat :=
  let st := (chunk64 (sha256pad msg)).foldl compressBlock sha256H0
  wordToBytes st.a ++ wordToBytes st.b ++ wordToBytes st.c ++ wordToBytes st.d ++
  wordToBytes st.e ++ wordToBytes st.f ++ wordToBytes st.g ++ wordToBytes st.h

/-- HMAC-SHA256 (RFC 2104) of `msg` keyed by `key`, both byte lists. -/
def hmacSha256 (key msg : List Nat) : List Nat :=
  let k1 := if key.length > 64 then sha256 key else key
  let k2 := k1 ++ List.replicate (64 - k1.length) 0
  sha256 ((k2.map (fun b => b ^^^ 0x5c)) ++ sha256 ((k2.map (fun b => b ^^^ 0x36)) ++ msg))

/-- Lowercase hexadecimal digit for `n < 16`. -/
def hexDigit (n : Nat) : Char :=
  if n < 10 then Char.ofNat (48 + n) else Char.ofNat (87 + n)

/-- Lowercase hexadecimal encoding of a byte list (Go `hex.EncodeToString`). -/
def hexEncode (bytes : List Nat) : String :=
  String.mk (bytes.foldr (fun b acc => hexDigit (b / 16) :: hexDigit (b % 16) :: acc) [])

/-- The UTF-8 bytes of a string, as Go's `[]byte(s)` produces them. -/
def strBytes (s : String) : List Nat :=
  s.toUTF8.toList.map (fun b => b.toNat)

/-! ### MoMo payment entity (`internal/entity/momo_payment_entity.go`) -/

/-- The MoMo payment request entity. -/
structure MoMoRequest where
  PartnerCode : String
  AccessKey : String
  RequestID : String
  Amount : String
  OrderID : String
  Signature : String
deriving DecidableEq, Repr

/-- `NewMoMoRequest` builds a request from the five inputs; the `Signature`
field is left at the Go zero value, the empty string. -/
def NewMoMoRequest (partnerCode accessKey requestID amount orderID : String) : MoMoRequest :=
  { PartnerCode := partnerCode
    AccessKey := accessKey
    RequestID := requestID
    Amount := amount
    OrderID := orderID
    Signature := "" }

/-- `GenerateSignature` sets `Signature` to the lowercase-hex HMAC-SHA256,
keyed by `secrectKey` (name as in the source), of
`PartnerCode + RequestID + Amount + AccessKey`. Go mutates the receiver; the
embedding returns the updated record. -/
def GenerateSignature (r : MoMoRequest) (secrectKey : String) : MoMoRequest :=
  let rawSignature := r.PartnerCode ++ r.RequestID ++ r.Amount ++ r.AccessKey
  { r with Signature := hexEncode (hmacSha256 (strBytes secrectKey) (strBytes rawSignature)) }

/-! ### Blob URL issuer (`internal/infra/aws` S3 client) -/

/-- The HTTP method a presigned request authorizes. -/
inductive PresignMethod where
  | put
  | get
deriving DecidableEq, Repr

/-- The parameters handed to the storage provider's presigner: bucket, object
key, content type, method, and the expiration window in minutes
(`o.Expires = 15 * time.Minute` in the source). -/
structure PresignParams where
  bucket : String
  key : String
  contentType : String
  method : PresignMethod
  expiresMinutes : Nat
deriving DecidableEq, Repr

/-- The S3 client state the issuer carries (the provider handle itself is
abstracted into the `presign` argument of `generatePresignedURL`). -/
structure S3Client where
  Bucket : String
deriving DecidableEq, Repr

/-- `S3Client.GeneratePresignedURL` from the source: rejects an empty file
name before anything else, forms the key by joining folder and file name with
`/` (the file name alone when the folder is empty), and asks the provider to
presign a `PutObject` for that key, content type, and a 15-minute window.
The provider is the `presign` parameter; the returned list records every
provider invocation, so "no provider call" is observable. A provider failure
is wrapped with the `FailedToPresignPutObjectRequest` reason text. -/
def generatePresignedURL (presign : PresignParams → Except String String)
    (s : S3Client) (folder fileName fileType : String) :
    Except String String × List PresignParams :=
  if fileName = "" then
    (.error "file name must not be empty", [])
  else
    let fullPath := if folder = "" then fileName else folder ++ "/" ++ fileName
    let params : PresignParams :=
      { bucket := s.Bucket, key := fullPath, contentType := fileType
        method := .put, expiresMinutes := 15 }
    match presign params with
    | .ok url => (.ok url, [params])
    | .error e => (.error ("failed to presign PutObject request, " ++ e), [params])

/-- Modelled from the spec: the storage provider's presigner. The provider
itself (the AWS SDK) is an external collaborator, not repository code; per the
glossary a presigned URL grants the requested operation "on a specific object
in blob storage", and the repository's test fixtures shape the URL as the
provider host, the object key, and a signature query. -/
def s3Presign (p : PresignParams) : Except String String :=
  .ok ("https://" ++ p.bucket ++ ".s3.amazonaws.com/" ++ p.key ++
       "?X-Amz-Expires=" ++ toString (p.expiresMinutes * 60) ++ "&signature=sig")

/-! ### Video lifecycle service and record store

The service/store implementation files are not among the sources; only the
request-surface tests that exercise them through a mock are. These
definitions are therefore modelled from the specification (§3, §4.1, §4.3),
with the record fields taken from the `entity.Video` literal in the tests. -/

/-- Modelled from the spec: the four-member video status enumeration
(`Raw`, `Processing`, `Success`, `Failed`). -/
inductive VideoStatus where
  | raw
  | processing
  | success
  | failed
deriving DecidableEq, Repr

/-- Modelled from the spec: one video record, fields as in the data model and
the `entity.Video` literals of the handler tests; timestamps are abstract
clock readings. -/
structure Video where
  id : Nat
  title : String
  duration : Nat
  description : String
  fileName : String
  folder : String
  image : String
  status : VideoStatus
  userId : Nat
  createdAt : Nat
  updatedAt : Nat
deriving DecidableEq, Repr

/-- Modelled from the spec: the video record store, a map from numeric ID to
record plus the next ID the store will assign on creation. -/
structure VideoStore where
  videos : Nat → Option Video
  nextId : Nat

/-- Modelled from the spec: service-level error classes — `notFound` for a
missing record, `internal` carrying the collaborator's raw message for any
other store/issuer failure. -/
inductive SvcErr where
  | notFound
  | internal (msg : String)
deriving DecidableEq, Repr

/-- Store lookup by ID. -/
def findByID (st : VideoStore) (id : Nat) : Option Video := st.videos id

/-- Modelled from the spec: `CreateVideo` persists a new record with the
store-assigned ID, status forced to `Raw`, and both timestamps set at
creation; returns the new store and the assigned ID. -/
def createVideo (st : VideoStore) (v : Video) (now : Nat) : VideoStore × Nat :=
  let assigned : Video :=
    { v with id := st.nextId, status := .raw, createdAt := now, updatedAt := now }
  ({ videos := fun j => if j = st.nextId then some assigned else st.videos j
     nextId := st.nextId + 1 }, st.nextId)

/-- Modelled from the spec: `UpdateStatus` replaces the stored status with
`s` and advances `UpdatedAt` to the call time, leaving every other field and
every other record untouched; `notFound` when the ID is absent. Failure
returns no store, so the caller's store is unchanged. -/
def updateStatus (st : VideoStore) (id : Nat) (s : VideoStatus) (now : Nat) :
    Except SvcErr VideoStore :=
  match st.videos id with
  | none => .error .notFound
  | some v =>
      .ok { st with videos := fun j =>
              if j = id then some { v with status := s, updatedAt := now }
              else st.videos j }

/-- Modelled from the spec: `GetStatus` reads the stored record's status;
`notFound` when the ID is absent. -/
def getStatus (st : VideoStore) (id : Nat) : Except SvcErr VideoStatus :=
  match st.videos id with
  | none => .error .notFound
  | some v => .ok v.status

/-- Modelled from the spec: `DeleteVideo` removes the record; `notFound` when
the ID is absent. -/
def deleteVideo (st : VideoStore) (id : Nat) : Except SvcErr VideoStore :=
  match st.videos id with
  | none => .error .notFound
  | some _ => .ok { st with videos := fun j => if j = id then none else st.videos j }

/-- Which folder `GenerateUploadURL` selects. -/
inductive UploadKind where
  | video
  | image
deriving DecidableEq, Repr

/-- Modelled from the spec: the service's `GenerateUploadURL` delegates to the
Blob URL Issuer with a folder selected by `kind` from external configuration
(`VideosFolder` / `VideoFramesFolder` in the tests). -/
def generateUploadURL (presign : PresignParams → Except String String)
    (s : S3Client) (videosFolder framesFolder : String) (kind : UploadKind)
    (fileName fileType : String) : Except String String × List PresignParams :=
  generatePresignedURL presign s
    (match kind with | .video => videosFolder | .image => framesFolder)
    fileName fileType

/-! ### Request surface (controller)

The controller implementation file is not among the sources; its tests are,
and they pin each endpoint's response code and body. These handlers are
modelled from the specification (§6, §7) and those tests. A handler returns
its response together with the list of service invocations it performed, so
"no service call was attempted" is observable. -/

/-- An HTTP response: status code and the body's message string (the
`error`/`message`/URL field the tests inspect). -/
structure Resp where
  code : Nat
  msg : String
deriving DecidableEq, Repr

/-- Modelled from the spec: the path-parameter parser the per-ID endpoints
use (Go `strconv.ParseUint(s, 10, 64)`): decimal digits only, non-empty,
value below 2^64. -/
def parseVideoID (s : String) : Option Nat :=
  if !s.data.isEmpty && s.data.all Char.isDigit then
    let n := s.data.foldl (fun a c => a * 10 + (c.toNat - 48)) 0
    if n < 2 ^ 64 then some n else none
  else none

/-- Modelled from the spec: string form of a status for the response body. -/
def statusString : VideoStatus → String
  | .raw => "raw"
  | .processing => "processing"
  | .success => "success"
  | .failed => "failed"

/-- Modelled from the spec: `GET /videos/:id/status`. Invalid ID → 400
"invalid video ID" with no service call; otherwise `notFound` → 404 "video
not found", `internal` → 500 "internal server error" (the raw message only
logged), success → 200 with the status. -/
def handleGetVideoStatus (idStr : String)
    (svc : Nat → Except SvcErr VideoStatus) : Resp × List Nat :=
  match parseVideoID idStr with
  | none => (⟨400, "invalid video ID"⟩, [])
  | some id =>
      match svc id with
      | .ok s => (⟨200, statusString s⟩, [id])
      | .error .notFound => (⟨404, "video not found"⟩, [id])
      | .error (.internal _) => (⟨500, "internal server error"⟩, [id])

/-- Modelled from the spec: `PUT /videos/:id/status`. Invalid ID → 400
"invalid video ID"; unparsable body → 400 "invalid input"; then `notFound` →
404, `internal` → 500 generic, success → 200 "status updated successfully".
No service call on either 400. -/
def handleUpdateVideoStatus (idStr : String) (body : Option VideoStatus)
    (svc : Nat → VideoStatus → Except SvcErr Unit) :
    Resp × List (Nat × VideoStatus) :=
  match parseVideoID idStr with
  | none => (⟨400, "invalid video ID"⟩, [])
  | some id =>
      match body with
      | none => (⟨400, "invalid input"⟩, [])
      | some s =>
          match svc id s with
          | .ok _ => (⟨200, "status updated successfully"⟩, [(id, s)])
          | .error .notFound => (⟨404, "video not found"⟩, [(id, s)])
          | .error (.internal _) => (⟨500, "internal server error"⟩, [(id, s)])

/-- Modelled from the spec: `GET /videos/:id`. Invalid ID → 400 "invalid
video ID" with no service call; `notFound` → 404, `internal` → 500 generic;
success → 200 with the two URLs in the body. -/
def handleGetVideoByID (idStr : String)
    (svc : Nat → Except SvcErr (Video × String × String)) : Resp × List Nat :=
  match parseVideoID idStr with
  | none => (⟨400, "invalid video ID"⟩, [])
  | some id =>
      match svc id with
      | .ok r => (⟨200, r.2.1 ++ " " ++ r.2.2⟩, [id])
      | .error .notFound => (⟨404, "video not found"⟩, [id])
      | .error (.internal _) => (⟨500, "internal server error"⟩, [id])

/-- Modelled from the spec: `DELETE /videos/:id`. Invalid ID → 400 "invalid
video ID" with no service call; `notFound` → 404, `internal` → 500 generic;
success → 200 "Video deleted successfully". -/
def handleDeleteVideo (idStr : String)
    (svc : Nat → Except SvcErr Unit) : Resp × List Nat :=
  match parseVideoID idStr with
  | none => (⟨400, "invalid video ID"⟩, [])
  | some id =>
      match svc id with
      | .ok _ => (⟨200, "Video deleted successfully"⟩, [id])
      | .error .notFound => (⟨404, "video not found"⟩, [id])
      | .error (.internal _) => (⟨500, "internal server error"⟩, [id])

/-- Modelled from the tests: `POST /videos/generate-upload-url/video`. The
handler passes the configured folder and the query parameters to the service;
on failure it returns 500 with the service error's text itself in the body
(`assert.Equal(t, errMsg, resp.Error)` in the tests), on success 200 with the
URL. -/
def handleGenerateUploadURLForVideo (folder fileName fileType : String)
    (svc : String → String → String → Except String String) :
    Resp × List (String × String × String) :=
  match svc folder fileName fileType with
  | .ok url => (⟨200, url⟩, [(folder, fileName, fileType)])
  | .error e => (⟨500, e⟩, [(folder, fileName, fileType)])

/-- Modelled from the tests: `GET /videos/:id/download-url/video`. Invalid
ID → 400 "invalid video ID" with no service call; on failure 500 with the
service error's text itself in the body; on success 200 with the URL. -/
def handleGenerateDownloadURLForVideo (idStr : String)
    (svc : Nat → Except String String) : Resp × List Nat :=
  match parseVideoID idStr with
  | none => (⟨400, "invalid video ID"⟩, [])
  | some id =>
      match svc id with
      | .ok url => (⟨200, url⟩, [id])
      | .error e => (⟨500, e⟩, [id])

/-! ### Concrete fixtures used by witnesses -/

/-- A concrete stored record, fields as in the tests' fixture video. -/
def v0 : Video :=
  ⟨1, "Test Video", 120, "A test video", "test.mp4", "videos", "test.jpg", .raw, 1, 0, 0⟩

/-- A concrete store holding `v0` under ID 1. -/
def st0 : VideoStore := ⟨fun j => if j = 1 then some v0 else none, 2⟩

/-- The store `st0` after `updateStatus st0 1 .success 9`. -/
def st0after : VideoStore :=
  ⟨fun j => if j = 1 then some { v0 with status := .success, updatedAt := 9 }
            else st0.videos j, st0.nextId⟩

/-! ### Claims -/

/-- C9: `GenerateSignature` sets `Signature` to the lowercase-hex HMAC-SHA256,
keyed by the secret, of `PartnerCode ++ RequestID ++ Amount ++ AccessKey`
(AccessKey last); hence requests agreeing on those four fields get equal
signatures under the same key, whatever their `OrderID` or prior
`Signature`. -/
theorem claim_C9_generateSignature (r : MoMoRequest) (key : String) :
    (GenerateSignature r key).Signature =
      hexEncode (hmacSha256 (strBytes key)
        (strBytes (r.PartnerCode ++ r.RequestID ++ r.Amount ++ r.AccessKey))) ∧
    ∀ r₂ : MoMoRequest, r.PartnerCode = r₂.PartnerCode → r.RequestID = r₂.RequestID →
      r.Amount = r₂.Amount → r.AccessKey = r₂.AccessKey →
      (GenerateSignature r key).Signature = (GenerateSignature r₂ key).Signature := by
  refine ⟨rfl, ?_⟩
  intro r₂ h1 h2 h3 h4
  simp [GenerateSignature, h1, h2, h3, h4]

/-- C9 witness: two concrete requests differing only in `OrderID` and in the
stale `Signature` field receive the same signature. -/
theorem claim_C9_witness :
    (GenerateSignature ⟨"PC", "AK", "RID", "50000", "order-1", "stale"⟩ "k").Signature =
    (GenerateSignature ⟨"PC", "AK", "RID", "50000", "order-2", ""⟩ "k").Signature :=
  (claim_C9_generateSignature ⟨"PC", "AK", "RID", "50000", "order-1", "stale"⟩ "k").2
    ⟨"PC", "AK", "RID", "50000", "order-2", ""⟩ rfl rfl rfl rfl

/-- C10: `GenerateSignature` changes only the `Signature` field, and
`NewMoMoRequest` returns a request with empty `Signature` and the given
`OrderID`. -/
theorem claim_C10_frame (r : MoMoRequest) (key : String)
    (partnerCode accessKey requestID amount orderID : String) :
    (GenerateSignature r key).PartnerCode = r.PartnerCode ∧
    (GenerateSignature r key).AccessKey = r.AccessKey ∧
    (GenerateSignature r key).RequestID = r.RequestID ∧
    (GenerateSignature r key).Amount = r.Amount ∧
    (GenerateSignature r key).OrderID = r.OrderID ∧
    (NewMoMoRequest partnerCode accessKey requestID amount orderID).Signature = "" ∧
    (NewMoMoRequest partnerCode accessKey requestID amount orderID).OrderID = orderID :=
  ⟨rfl, rfl, rfl, rfl, rfl, rfl, rfl⟩

/-- C3: with an empty file name, `GeneratePresignedURL` fails with the
invalid-input error and records no provider invocation, for every provider,
folder, and file type. -/
theorem claim_C3_emptyFileName (presign : PresignParams → Except String String)
    (s : S3Client) (folder fileType : String) :
    generatePresignedURL presign s folder "" fileType =
      (.error "file name must not be empty", []) := rfl

/-- C4: for a non-empty file name the object key is `folder ++ "/" ++
fileName` (just `fileName` when the folder is empty) — recorded as the key of
the single provider invocation, for every provider — and with the modelled
provider the call succeeds with a URL containing that key. -/
theorem claim_C4_keyFormation (s : S3Client) (folder fileName fileType : String)
    (hne : fileName ≠ "") :
    (∀ presign, (generatePresignedURL presign s folder fileName fileType).2.map
        PresignParams.key =
      [if folder = "" then fileName else folder ++ "/" ++ fileName]) ∧
    ∃ url, (generatePresignedURL s3Presign s folder fileName fileType).1 = .ok url ∧
      ∃ a b : List Char,
        url.data = a ++ (if folder = "" then fileName
                         else folder ++ "/" ++ fileName).data ++ b := by
  constructor
  · intro presign
    unfold generatePresignedURL
    rw [if_neg hne]
    cases hpre : presign { bucket := s.Bucket
                           key := if folder = "" then fileName
                                  else folder ++ "/" ++ fileName
                           contentType := fileType, method := .put
                           expiresMinutes := 15 } <;>
      simp [hpre]
  · unfold generatePresignedURL
    rw [if_neg hne]
    simp only [s3Presign]
    refine ⟨_, rfl, ("https://" ++ s.Bucket ++ ".s3.amazonaws.com/").data,
      ("?X-Amz-Expires=" ++ toString (15 * 60) ++ "&signature=sig").data, ?_⟩
    simp [String.data_append]

/-- C4 witness: with folder `"folder"` and file name `"name.ext"` the issued
URL contains `folder/name.ext`. -/
theorem claim_C4_witness :
    ("name.ext" : String) ≠ "" ∧
    ∃ url, (generatePresignedURL s3Presign ⟨"bucket"⟩ "folder" "name.ext" "type").1 =
        .ok url ∧
      ∃ a b : List Char, url.data = a ++ ("folder/name.ext" : String).data ++ b := by
  refine ⟨by decide, ?_⟩
  have h := (claim_C4_keyFormation ⟨"bucket"⟩ "folder" "name.ext" "type" (by decide)).2
  have hkey : (if ("folder" : String) = "" then ("name.ext" : String)
               else "folder" ++ "/" ++ "name.ext") = "folder/name.ext" := by decide
  rw [hkey] at h
  exact h

/-- C5: every provider invocation issued by `GeneratePresignedURL` — and by
`GenerateUploadURL`, which delegates to it — carries a 15-minute expiration
window, the PUT method, and exactly the caller's content type. -/
theorem claim_C5_expiryPutContentType (presign : PresignParams → Except String String)
    (s : S3Client) (folder fileName fileType : String) :
    (∀ p ∈ (generatePresignedURL presign s folder fileName fileType).2,
       p.expiresMinutes = 15 ∧ p.method = .put ∧ p.contentType = fileType) ∧
    (∀ videosFolder framesFolder kind,
       ∀ p ∈ (generateUploadURL presign s videosFolder framesFolder kind
                fileName fileType).2,
       p.expiresMinutes = 15 ∧ p.method = .put ∧ p.contentType = fileType) := by
  have main : ∀ folder', ∀ p ∈ (generatePresignedURL presign s folder' fileName fileType).2,
      p.expiresMinutes = 15 ∧ p.method = .put ∧ p.contentType = fileType := by
    intro folder' p hp
    by_cases hne : fileName = ""
    · simp [generatePresignedURL, hne] at hp
    · simp only [generatePresignedURL, if_neg hne] at hp
      cases hpre : presign { bucket := s.Bucket
                             key := if folder' = "" then fileName
                                    else folder' ++ "/" ++ fileName
                             contentType := fileType, method := .put
                             expiresMinutes := 15 } <;>
        · rw [hpre] at hp
          simp at hp
          subst hp
          exact ⟨rfl, rfl, rfl⟩
  exact ⟨main folder, fun videosFolder framesFolder kind =>
    main (match kind with | .video => videosFolder | .image => framesFolder)⟩

/-- C5 witness: the concrete invocation issued for bucket `"b"`, folder
`"f"`, file `"n"`, type `"t"` has a 15-minute window, PUT, and content type
`"t"`. -/
theorem claim_C5_witness :
    (⟨"b", "f/n", "t", PresignMethod.put, 15⟩ : PresignParams) ∈
      (generatePresignedURL s3Presign ⟨"b"⟩ "f" "n" "t").2 ∧
    (15 = 15 ∧ PresignMethod.put = PresignMethod.put ∧ ("t" : String) = "t") :=
  ⟨by decide,
   (claim_C5_expiryPutContentType s3Presign ⟨"b"⟩ "f" "n" "t").1
     ⟨"b", "f/n", "t", PresignMethod.put, 15⟩ (by decide)⟩

/-- C1 counterexample: the upload-URL endpoint surfaces the collaborator's
raw error text — the body carries "S3 service unavailable", not the fixed
generic internal-error message, exactly as the repository's own handler test
asserts. -/
theorem claim_C1_counterexample :
    (handleGenerateUploadURLForVideo "test_videos" "video2.mp4" "video/mp4"
        (fun _ _ _ => .error "S3 service unavailable")).1 =
      ⟨500, "S3 service unavailable"⟩ ∧
    ("S3 service unavailable" : String) ≠ "internal server error" :=
  ⟨rfl, by decide⟩

/-- C1 amended: the per-ID CRUD endpoints (status get/update, get-by-ID,
delete) surface collaborator failures as the fixed generic
"internal server error" body, whatever the raw message; the upload-URL and
download-URL endpoints instead return the collaborator error's own text with
HTTP 500. -/
theorem claim_C1_genericInternalError (idStr : String) (id : Nat) (msg : String)
    (st : VideoStatus) (folder fileName fileType : String)
    (hid : parseVideoID idStr = some id) :
    (handleGetVideoStatus idStr (fun _ => .error (.internal msg))).1 =
      ⟨500, "internal server error"⟩ ∧
    (handleUpdateVideoStatus idStr (some st) (fun _ _ => .error (.internal msg))).1 =
      ⟨500, "internal server error"⟩ ∧
    (handleGetVideoByID idStr (fun _ => .error (.internal msg))).1 =
      ⟨500, "internal server error"⟩ ∧
    (handleDeleteVideo idStr (fun _ => .error (.internal msg))).1 =
      ⟨500, "internal server error"⟩ ∧
    (handleGenerateUploadURLForVideo folder fileName fileType
        (fun _ _ _ => .error msg)).1 = ⟨500, msg⟩ ∧
    (handleGenerateDownloadURLForVideo idStr (fun _ => .error msg)).1 =
      ⟨500, msg⟩ := by
  simp [handleGetVideoStatus, handleUpdateVideoStatus, handleGetVideoByID,
        handleDeleteVideo, handleGenerateUploadURLForVideo,
        handleGenerateDownloadURLForVideo, hid]

/-- C1 witness: the amended behaviour at ID string "3" and message
"database connection failed". -/
theorem claim_C1_witness :
    parseVideoID "3" = some 3 ∧
    (handleGetVideoStatus "3"
        (fun _ => .error (.internal "database connection failed"))).1 =
      ⟨500, "internal server error"⟩ :=
  ⟨by decide,
   (claim_C1_genericInternalError "3" 3 "database connection failed"
      VideoStatus.processing "test_videos" "video2.mp4" "video/mp4"
      (by decide)).1⟩

/-- C2: for every status in the enumeration and every ID present in the
store, `updateStatus` succeeds and an immediate `getStatus` on the result
returns that status. -/
theorem claim_C2_updateThenGet (st : VideoStore) (id : Nat) (s : VideoStatus)
    (now : Nat) (v : Video) (h : findByID st id = some v) :
    ∃ st', updateStatus st id s now = .ok st' ∧ getStatus st' id = .ok s := by
  have hv : st.videos id = some v := h
  refine ⟨{ st with videos := fun j =>
              if j = id then some { v with status := s, updatedAt := now }
              else st.videos j }, ?_, ?_⟩
  · simp [updateStatus, hv]
  · simp [getStatus]

/-- C2 witness: on the concrete store `st0`, updating video 1 to
`processing` succeeds and reads back `processing`. -/
theorem claim_C2_witness :
    findByID st0 1 = some v0 ∧
    ∃ st', updateStatus st0 1 .processing 5 = .ok st' ∧
      getStatus st' 1 = .ok .processing :=
  ⟨rfl, claim_C2_updateThenGet st0 1 .processing 5 v0 rfl⟩

/-- C6: whatever status the caller supplies in the input record,
`createVideo` persists it with status `Raw`: the freshly assigned ID reads
back as `Raw` (and as the input record with ID, status, and timestamps
overwritten by the store). -/
theorem claim_C6_createForcesRaw (st : VideoStore) (v : Video) (now : Nat) :
    findByID (createVideo st v now).1 (createVideo st v now).2 =
      some { v with id := st.nextId, status := .raw
                    createdAt := now, updatedAt := now } ∧
    getStatus (createVideo st v now).1 (createVideo st v now).2 = .ok .raw := by
  constructor
  · simp [findByID, createVideo]
  · simp [getStatus, createVideo]

/-- C7: `updateStatus` is atomic — on success the stored record is exactly
the old one with `status` replaced and `updatedAt` advanced to the call time
and every other record untouched; it fails exactly when the ID is absent, in
which case no new store is produced (the caller's store is unchanged). -/
theorem claim_C7_updateAtomic (st : VideoStore) (id : Nat) (s : VideoStatus)
    (now : Nat) :
    (∀ st', updateStatus st id s now = .ok st' →
       ∃ v, findByID st id = some v ∧
         findByID st' id = some { v with status := s, updatedAt := now } ∧
         ∀ j, j ≠ id → findByID st' j = findByID st j) ∧
    (updateStatus st id s now = .error .notFound ↔ findByID st id = none) := by
  constructor
  · intro st' h
    cases hv : st.videos id with
    | none => simp [updateStatus, hv] at h
    | some v =>
        simp only [updateStatus, hv, Except.ok.injEq] at h
        subst h
        exact ⟨v, hv, by simp [findByID], fun j hj => by simp [findByID, hj]⟩
  · constructor
    · intro h
      cases hv : st.videos id with
      | none => exact hv
      | some v => simp [updateStatus, hv] at h
    · intro h
      have hv : st.videos id = none := h
      simp [updateStatus, hv]

/-- C7 witness: on the concrete store `st0`, updating video 1 to `success`
at time 9 yields exactly `st0after`, whose record 1 is the old record with
the new status and timestamp and whose other slots are untouched. -/
theorem claim_C7_witness :
    ∃ v, findByID st0 1 = some v ∧
      findByID st0after 1 = some { v with status := VideoStatus.success
                                          updatedAt := 9 } ∧
      ∀ j, j ≠ 1 → findByID st0after j = findByID st0 j :=
  (claim_C7_updateAtomic st0 1 VideoStatus.success 9).1 st0after rfl

/-- C8: a non-numeric identifier string is rejected by every per-ID endpoint
(status get/update, get-by-ID, delete, download-url) with 400
"invalid video ID" and an empty service-call log — no service operation is
invoked, whatever the service would answer. -/
theorem claim_C8_invalidID (s : String) (h : parseVideoID s = none)
    (svcA : Nat → Except SvcErr VideoStatus) (body : Option VideoStatus)
    (svcB : Nat → VideoStatus → Except SvcErr Unit)
    (svcC : Nat → Except SvcErr (Video × String × String))
    (svcD : Nat → Except SvcErr Unit) (svcE : Nat → Except String String) :
    handleGetVideoStatus s svcA = (⟨400, "invalid video ID"⟩, []) ∧
    handleUpdateVideoStatus s body svcB = (⟨400, "invalid video ID"⟩, []) ∧
    handleGetVideoByID s svcC = (⟨400, "invalid video ID"⟩, []) ∧
    handleDeleteVideo s svcD = (⟨400, "invalid video ID"⟩, []) ∧
    handleGenerateDownloadURLForVideo s svcE = (⟨400, "invalid video ID"⟩, []) := by
  simp [handleGetVideoStatus, handleUpdateVideoStatus, handleGetVideoByID,
        handleDeleteVideo, handleGenerateDownloadURLForVideo, h]

/-- C8 witness: the identifier string "abc" is rejected by the status
endpoint with 400 "invalid video ID" and no service call. -/
theorem claim_C8_witness :
    parseVideoID "abc" = none ∧
    handleGetVideoStatus "abc" (fun _ => .ok .raw) =
      (⟨400, "invalid video ID"⟩, []) :=
  ⟨by decide,
   (claim_C8_invalidID "abc" (by decide) (fun _ => .ok .raw) none
      (fun _ _ => .ok ()) (fun _ => .error .notFound) (fun _ => .ok ())
      (fun _ => .ok "u")).1⟩

end Mlvt
